import Mathlib

/-
Verification of the cps-future library (src/include/cps/future.h).

The development shallow-embeds the parts of the header that the properties
below talk about:

  * the per-future state machine (`future<T>::apply_state`, `done`, `fail`,
    `cancel`, `call_when_ready`, the state queries and the `value` /
    `failure` / `failure_reason` accessors);
  * the failure record `cps::future_exception`;
  * the continuation body installed by `future<T>::then`;
  * the aggregation combinators `needs_all` / `needs_any` (nullary,
    single-future, vector and variadic overloads).

Modelling conventions:

  * machine time (`high_resolution_clock::time_point`) is an abstract `Nat`
    passed to each resolving call; the default-constructed `resolved_`
    checkpoint is modelled as `0`;
  * queued continuations (`std::function<void(future<T>&)>`) are opaque:
    a continuation is a `Nat` identifier, and an operation returns, next to
    the updated future, the list of (continuation, argument-snapshot) pairs
    it invoked, in invocation order.  Dispatch in `apply_state` happens
    after the state/queue update, so the snapshot is the resolved future,
    exactly as in the source;
  * a null `shared_ptr` / `unique_ptr` is `Option.none`;
  * a C++ exception escaping a call is an `Except.error`.
-/

/-- State enum of `future<T>` (`enum class state`). -/
inductive St where
  | pending
  | done
  | failed
  | cancelled
deriving DecidableEq

/-- Model of a `std::exception`: all the source ever reads from one is its
`what()` message (`fail_exception` is a `std::runtime_error` whose `what()`
is the string it was built from). -/
structure StdException where
  what : String
deriving DecidableEq

/-- Model of `cps::future_exception`: the stored exception pointer `ex_`,
the component label and the rendered reason string. -/
structure FutureException where
  ex_ : Option StdException
  component_ : String
  reason_ : String
deriving DecidableEq

/-- The `future_exception` constructor: the member initialiser list reads
`ex_(), component_(component), reason_(e->what())` — the passed exception
`e` is only consulted for its message, and `ex_` is left default-constructed
(a null `shared_ptr`). -/
def FutureException.make (e : StdException) (component : String) : FutureException :=
  { ex_ := none, component_ := component, reason_ := e.what }

/-- Accessor `future_exception::ex()`: the source returns `*ex_`.  We model
the dereference by returning the stored pointer itself; `none` marks the
null-pointer dereference the source would perform. -/
def FutureException.ex (fe : FutureException) : Option StdException :=
  fe.ex_

/-- Accessor `future_exception::reason()`. -/
def FutureException.reason (fe : FutureException) : String :=
  fe.reason_

/-- Model of `cps::future<T>`: the fields of the class in declaration order
(the mutex is the critical section itself and has no state to model). -/
structure Fut (T : Type) where
  state_ : St
  tasks_ : List Nat
  ex_ : Option FutureException
  label_ : String
  created_ : Nat
  resolved_ : Nat
  value_ : Option T
deriving DecidableEq

/-- The `future(label)` constructor: `state_(state::pending)`, empty task
queue, null `ex_`, the given label and creation checkpoint; `resolved_` and
`value_` are default-constructed. -/
def Fut.create (T : Type) (label : String) (now : Nat) : Fut T :=
  { state_ := St.pending
    tasks_ := []
    ex_ := none
    label_ := label
    created_ := now
    resolved_ := 0
    value_ := none }

/-- `future<T>::apply_state(code, s)`: runs `code(*this)`, drains the task
queue, stamps the resolution time, sets the state, then invokes every
drained task with the (now resolved) future.  Note that the source performs
no check of the current state — it only asserts `s != state::pending`. -/
def Fut.apply_state {T : Type} (f : Fut T) (code : Fut T → Fut T) (s : St) (now : Nat) :
    Fut T × List (Nat × Fut T) :=
  let f1 := code f
  let drained := f1.tasks_
  let f2 : Fut T :=
    { f1 with tasks_ := [], resolved_ := now, state_ := s }
  (f2, drained.map (fun k => (k, f2)))

/-- `future<T>::done(v)`: `apply_state` with the effect `value_ = v`. -/
def Fut.done {T : Type} (f : Fut T) (v : T) (now : Nat) : Fut T × List (Nat × Fut T) :=
  f.apply_state (fun g => { g with value_ := some v }) St.done now

/-- `future<T>::fail(ex, component)`: builds a `fail_exception` carrying the
message, wraps it in a `future_exception`, and `apply_state`s to `failed`. -/
def Fut.fail {T : Type} (f : Fut T) (reason : String) (component : String) (now : Nat) :
    Fut T × List (Nat × Fut T) :=
  f.apply_state
    (fun g => { g with ex_ := some (FutureException.make (StdException.mk reason) component) })
    St.failed now

/-- `future<T>::cancel()`: `apply_state` with a no-op effect. -/
def Fut.cancel {T : Type} (f : Fut T) (now : Nat) : Fut T × List (Nat × Fut T) :=
  f.apply_state (fun g => g) St.cancelled now

/-- `future<T>::call_when_ready(code)`: under the lock, check the state; if
already resolved invoke the continuation at once (with the future itself as
argument), otherwise append it to the queue. -/
def Fut.call_when_ready {T : Type} (f : Fut T) (k : Nat) : Fut T × List (Nat × Fut T) :=
  if f.state_ ≠ St.pending then (f, [(k, f)])
  else ({ f with tasks_ := f.tasks_ ++ [k] }, [])

/-- `future<T>::on_ready(code)` simply forwards to `call_when_ready`. -/
def Fut.on_ready {T : Type} (f : Fut T) (k : Nat) : Fut T × List (Nat × Fut T) :=
  f.call_when_ready k

/-- `future<T>::is_ready()`. -/
def Fut.is_ready {T : Type} (f : Fut T) : Bool :=
  decide (f.state_ ≠ St.pending)

/-- `future<T>::is_done()`. -/
def Fut.is_done {T : Type} (f : Fut T) : Bool :=
  decide (f.state_ = St.done)

/-- `future<T>::is_failed()`. -/
def Fut.is_failed {T : Type} (f : Fut T) : Bool :=
  decide (f.state_ = St.failed)

/-- `future<T>::is_cancelled()`. -/
def Fut.is_cancelled {T : Type} (f : Fut T) : Bool :=
  decide (f.state_ = St.cancelled)

/-- `future<T>::is_pending()`. -/
def Fut.is_pending {T : Type} (f : Fut T) : Bool :=
  decide (f.state_ = St.pending)

/-- `future<T>::value()`: throws `std::runtime_error("future is not
complete")` unless the state is `done`, otherwise returns the stored
`value_` field verbatim. -/
def Fut.value {T : Type} (f : Fut T) : Except String (Option T) :=
  if f.state_ ≠ St.done then Except.error ("future is not complete")
  else Except.ok f.value_

/-- `future<T>::failure()`: throws `std::runtime_error("future is not
failed")` unless the state is `failed`, otherwise returns the stored
failure record (`*ex_`). -/
def Fut.failure {T : Type} (f : Fut T) : Except String (Option FutureException) :=
  if f.state_ ≠ St.failed then Except.error ("future is not failed")
  else Except.ok f.ex_

/-- `future<T>::failure_reason()`: same guard as `failure()`, then
`ex_->reason()`. -/
def Fut.failure_reason {T : Type} (f : Fut T) : Except String (Option String) :=
  if f.state_ ≠ St.failed then Except.error ("future is not failed")
  else Except.ok (f.ex_.map FutureException.reason)

/-- The three resolving entry points, as one datatype so a property can
quantify over "some resolving call". -/
inductive Resolve (T : Type) where
  | done (v : T)
  | fail (reason : String) (component : String)
  | cancel
deriving DecidableEq

/-- Dispatch a `Resolve` to the corresponding member function. -/
def Fut.resolve {T : Type} (f : Fut T) (r : Resolve T) (now : Nat) :
    Fut T × List (Nat × Fut T) :=
  match r with
  | Resolve.done v => f.done v now
  | Resolve.fail reason component => f.fail reason component now
  | Resolve.cancel => f.cancel now

/-- The kinds of C++ exception a user callback may raise, as far as the
`catch` clauses in `future<T>::then` can tell them apart: a
`cps::future_exception` (caught via its `reason()`), a
`std::runtime_error` or subclass such as `fail_exception` (caught via
`what()`), or any other exception (in particular a `std::exception` that
is not a `std::runtime_error`), which matches neither clause. -/
inductive CppErr where
  | futureEx (reason : String)
  | runtimeError (what : String)
  | otherEx (what : String)
deriving DecidableEq

/-- Terminal outcome of a future, as observed by the continuation that
`then` installs: `is_done()` with the value, `is_failed()` with
`failure_reason()`, or `is_cancelled()`. -/
inductive Outcome (V : Type) where
  | done (v : V)
  | failed (reason : String)
  | cancelled
deriving DecidableEq

/-- The propagation wiring `then` attaches to the inner future returned by
a callback: `on_done` → `f->done(v)`, `on_fail` → `f->fail(msg)`,
`on_cancel` → `f->fail("cancelled")`. -/
def mirrorInner {U : Type} (g : Outcome U) : Outcome U :=
  match g with
  | Outcome.done v => Outcome.done v
  | Outcome.failed m => Outcome.failed m
  | Outcome.cancelled => Outcome.failed ("cancelled")

/-- The body of the continuation `future<T>::then` registers on the source
future, as a function of the source's terminal outcome, for an outer future
that has not been resolved externally (so the `f->is_ready()` early return
does not fire).  A callback is a function returning either the eventual
outcome of the inner future it produced (`Except.ok`) or the exception it
raised (`Except.error`).  The `try`/`catch` block converts a raised
`future_exception` or `std::runtime_error` into `f->fail(message)`; any
other exception matches no `catch` clause and escapes into the resolving
call stack, which the model reports as `Except.error`.  With the source
`failed` and no `err` callback the outer fails with the same reason (the
component tag `"chained future"` lives in the failure record, not in the
reason); with the source `cancelled` the outer fails with `"cancelled"`. -/
def thenResult {V U : Type} (ok : V → Except CppErr (Outcome U))
    (err : Option (String → Except CppErr (Outcome U))) (src : Outcome V) :
    Except CppErr (Outcome U) :=
  match src with
  | Outcome.done v =>
    match ok v with
    | Except.ok g => Except.ok (mirrorInner g)
    | Except.error (CppErr.futureEx r) => Except.ok (Outcome.failed r)
    | Except.error (CppErr.runtimeError m) => Except.ok (Outcome.failed m)
    | Except.error (CppErr.otherEx m) => Except.error (CppErr.otherEx m)
  | Outcome.failed r =>
    match err with
    | some errf =>
      match errf r with
      | Except.ok g => Except.ok (mirrorInner g)
      | Except.error (CppErr.futureEx s) => Except.ok (Outcome.failed s)
      | Except.error (CppErr.runtimeError m) => Except.ok (Outcome.failed m)
      | Except.error (CppErr.otherEx m) => Except.error (CppErr.otherEx m)
    | none => Except.ok (Outcome.failed r)
  | Outcome.cancelled => Except.ok (Outcome.failed ("cancelled"))

/-- State of the `future<int>` returned by a combinator: it is only ever
resolved through `f->done(0)` or `f->fail(reason)`, so cancellation never
occurs and the failure is summarised by its reason string. -/
inductive RState where
  | pending
  | done (v : Int)
  | failed (reason : String)
deriving DecidableEq

/-- Terminal state of one input future, as seen by a combinator callback
(which only ever consults `in.is_done()`). -/
inductive InEv where
  | done
  | failed
  | cancelled
deriving DecidableEq

/-- `in.is_done()` for an input that resolved with the given outcome. -/
def InEv.isDone : InEv → Bool
  | InEv.done => true
  | InEv.failed => false
  | InEv.cancelled => false

/-- `needs_all()` with no arguments: create the future billed as the
degenerate instant success and immediately `done(0)` it. -/
def needsAllNullary : RState :=
  RState.done 0

/-- The callback of the single-future base case `needs_all(first)` (and of
`needs_any(first)`, which simply forwards to it), applied to a result that
is still pending: fail with `"error"` if the input did not complete,
otherwise `done(0)`. -/
def needsAllSingle (e : InEv) : RState :=
  if ¬ e.isDone then RState.failed ("error") else RState.done 0

/-- State owned by `needs_all(std::vector)`: the result future and the
shared atomic `pending` counter. -/
structure NeedsAllSt where
  f : RState
  pending : Int
deriving DecidableEq

/-- The state of `needs_all(std::vector)` as built before any input
callback has fired: result future freshly created, counter at
`first.size()`. -/
def needsAllInit (n : Nat) : NeedsAllSt :=
  { f := RState.pending, pending := (n : Int) }

/-- The lambda `code` registered by `needs_all(std::vector)` on every
input, run when that input resolves: return if the result is already
ready; fail the result on a non-`done` input; otherwise decrement the
counter and mark the result done when it reaches zero. -/
def needsAllCode (s : NeedsAllSt) (e : InEv) : NeedsAllSt :=
  if s.f ≠ RState.pending then s
  else if ¬ e.isDone then { s with f := RState.failed ("error") }
  else
    let p := s.pending - 1
    if p = 0 then { f := RState.done 0, pending := p }
    else { s with pending := p }

/-- A run of `needs_all(std::vector)`: the input resolutions arrive in some
order (an input already resolved when the combinator registers on it fires
during registration, i.e. first) and each invokes `code` once. -/
def needsAllRun (s : NeedsAllSt) (evs : List InEv) : NeedsAllSt :=
  List.foldl needsAllCode s evs

/-- `needs_any()` with no arguments: create the future and immediately
`fail("no elements")` it. -/
def needsAnyNullary : RState :=
  RState.failed ("no elements")

/-- The lambda `code` registered by `needs_any(std::vector)` on every
input (it keeps no counter): return if the result is already ready; fail
the result with `"error"` on a non-`done` input; otherwise `done(0)`. -/
def needsAnyCode (r : RState) (e : InEv) : RState :=
  if r ≠ RState.pending then r
  else if ¬ e.isDone then RState.failed ("error")
  else RState.done 0

/-- A run of `needs_any(std::vector)` over the input resolutions in
arrival order. -/
def needsAnyRun (r : RState) (evs : List InEv) : RState :=
  List.foldl needsAnyCode r evs

/-- State built by the variadic `needs_all(first, rest...)`: pair of the
head future and `needs_all(rest...)`, with the counter starting at 2. -/
def needsAllPairInit : NeedsAllSt :=
  { f := RState.pending, pending := 2 }

/-- The result future built by the pair stage of the variadic `needs_all`
is insensitive to which of its two constituents (head input, remainder
future) resolves first (only the leftover counter value differs). -/
lemma needsAllPair_comm (e1 e2 : InEv) :
    (needsAllRun needsAllPairInit [e1, e2]).f = (needsAllRun needsAllPairInit [e2, e1]).f := by
  cases e1 <;> cases e2 <;> rfl

/-- Eventual state of the result of the variadic `needs_all(first, rest...)`
recursion, given the eventual outcome of every input, assuming every input
does eventually resolve.  One future: the counterless base-case callback.
Two or more: the pair combinator over the head and the remainder future
`needs_all(rest...)` (which resolves `done(0)` or `failed("error")`, so the
pair callback sees `is_done()` of the remainder); by `needsAllPair_comm` the
arrival order of the two constituents does not matter, so the head event is
processed first, canonically.  The empty case is the nullary overload. -/
def needsAllVariadic : List InEv → RState
  | [] => needsAllNullary
  | [e] => needsAllSingle e
  | e :: e2 :: rest =>
    let remainder := needsAllVariadic (e2 :: rest)
    let remEv : InEv := if remainder = RState.done 0 then InEv.done else InEv.failed
    (needsAllRun needsAllPairInit [e, remEv]).f

/-- The result of the variadic `needs_all` recursion is `done(0)` exactly
when every input resolved `done`. -/
lemma needsAllVariadic_done_iff (evs : List InEv) :
    needsAllVariadic evs = RState.done 0 ↔ evs.all InEv.isDone = true := by
  induction evs with
  | nil => simp [needsAllVariadic, needsAllNullary]
  | cons e rest ih =>
    cases rest with
    | nil => cases e <;> simp [needsAllVariadic, needsAllSingle, InEv.isDone]
    | cons e2 rs =>
      by_cases h : needsAllVariadic (e2 :: rs) = RState.done 0
      · have hall : (e2 :: rs).all InEv.isDone = true := ih.mp h
        cases e <;>
          simp [needsAllVariadic, h, hall, needsAllRun, needsAllCode, needsAllPairInit,
            InEv.isDone]
      · have hall : ¬ (e2 :: rs).all InEv.isDone = true := fun hc => h (ih.mpr hc)
        cases e <;>
          simp [needsAllVariadic, h, hall, needsAllRun, needsAllCode, needsAllPairInit,
            InEv.isDone]

/-- The variadic `needs_any(first, rest...)`: it builds
`remainder = needs_all(rest...)` and registers the counterless any-callback
on both `first` and `remainder`.  `headFirst` records which of the two
constituents resolves first (the remainder resolves once `needs_all` over
the trailing inputs does). -/
def needsAnyVariadicRun (first : InEv) (rest : List InEv) (headFirst : Bool) : RState :=
  let remEv : InEv := if needsAllVariadic rest = RState.done 0 then InEv.done else InEv.failed
  needsAnyRun RState.pending (if headFirst then [first, remEv] else [remEv, first])

/-- Splitting a run of the vector `needs_all` at its last event. -/
lemma needsAllRun_append (s : NeedsAllSt) (evs : List InEv) (e : InEv) :
    needsAllRun s (evs ++ [e]) = needsAllCode (needsAllRun s evs) e := by
  simp [needsAllRun, List.foldl_append]

/-- Splitting a run of the vector `needs_any` at its last event. -/
lemma needsAnyRun_append (r : RState) (evs : List InEv) (e : InEv) :
    needsAnyRun r (evs ++ [e]) = needsAnyCode (needsAnyRun r evs) e := by
  simp [needsAnyRun, List.foldl_append]

/-- While fewer `done` inputs than the vector size have arrived, the
`needs_all` result is still pending and the counter holds the number of
inputs still awaited. -/
lemma needsAllRun_replicate_done (n k : Nat) (h : k < n) :
    needsAllRun (needsAllInit n) (List.replicate k InEv.done)
      = { f := RState.pending, pending := (n : Int) - (k : Int) } := by
  induction k with
  | zero => simp [needsAllRun, needsAllInit]
  | succ k ih =>
    have hk : k < n := Nat.lt_of_succ_lt h
    rw [List.replicate_succ', needsAllRun_append, ih hk]
    have hne : ¬ ((n : Int) - (k : Int) - 1 = 0) := by omega
    simp [needsAllCode, InEv.isDone, hne]
    omega

/-- Claim C1 (evaluation of the defect): `apply_state` performs no check of
the current state, so a later resolving call on an already-terminal future
is NOT a no-op: after `done(1)` at time 10, a `fail("boom")` at time 20
re-runs its effect (a failure record appears), changes the state (`done`
becomes `failed`) while the stored value survives, and re-stamps the
resolution time; a second `done(2)` overwrites the stored value.  Only the
dispatch is empty, the queue having been drained by the first call. -/
theorem double_resolution_is_not_a_noop :
    (((Fut.create Nat ("f") 0).done 1 10).1.state_ = St.done)
    ∧ (((Fut.create Nat ("f") 0).done 1 10).1.resolved_ = 10)
    ∧ (((Fut.create Nat ("f") 0).done 1 10).1.value_ = some 1)
    ∧ ((((Fut.create Nat ("f") 0).done 1 10).1.fail ("boom") ("unknown") 20).1.state_
        = St.failed)
    ∧ ((((Fut.create Nat ("f") 0).done 1 10).1.fail ("boom") ("unknown") 20).1.resolved_
        = 20)
    ∧ ((((Fut.create Nat ("f") 0).done 1 10).1.fail ("boom") ("unknown") 20).1.ex_
        = some (FutureException.make (StdException.mk ("boom")) ("unknown")))
    ∧ ((((Fut.create Nat ("f") 0).done 1 10).1.fail ("boom") ("unknown") 20).1.value_
        = some 1)
    ∧ ((((Fut.create Nat ("f") 0).done 1 10).1.fail ("boom") ("unknown") 20).2 = [])
    ∧ ((((Fut.create Nat ("f") 0).done 1 10).1.done 2 20).1.value_ = some 2) :=
  ⟨rfl, rfl, rfl, rfl, rfl, rfl, rfl, rfl, rfl⟩

/-- Claim C8: on a pending future, resolving `done(v)` makes `value()`
return the stored value while `failure()` / `failure_reason()` raise the
invalid-state error; resolving `fail(r, c)` makes the failure accessors
return the stored record / reason while `value()` raises; after `cancel()`,
and while still pending, the accessors raise as well — none silently
returns a default. -/
theorem value_and_failure_accessors_guard_state (T : Type) (f : Fut T) (v : T)
    (r c : String) (n : Nat) (hp : f.state_ = St.pending) :
    ((f.done v n).1.value = Except.ok (some v))
    ∧ ((f.done v n).1.failure = Except.error ("future is not failed"))
    ∧ ((f.done v n).1.failure_reason = Except.error ("future is not failed"))
    ∧ ((f.fail r c n).1.value = Except.error ("future is not complete"))
    ∧ ((f.fail r c n).1.failure
        = Except.ok (some (FutureException.make (StdException.mk r) c)))
    ∧ ((f.fail r c n).1.failure_reason = Except.ok (some r))
    ∧ ((f.cancel n).1.value = Except.error ("future is not complete"))
    ∧ ((f.cancel n).1.failure = Except.error ("future is not failed"))
    ∧ (f.value = Except.error ("future is not complete"))
    ∧ (f.failure = Except.error ("future is not failed")) := by
  refine ⟨?_, ?_, ?_, ?_, ?_, ?_, ?_, ?_, ?_, ?_⟩ <;>
    simp [Fut.done, Fut.fail, Fut.cancel, Fut.apply_state, Fut.value, Fut.failure,
      Fut.failure_reason, FutureException.make, FutureException.reason, hp]

/-- Witness for `value_and_failure_accessors_guard_state` at a concrete
pending future. -/
theorem value_and_failure_accessors_guard_state_witness :
    ((Fut.create Nat ("w") 0).done 5 3).1.value = Except.ok (some 5) :=
  (value_and_failure_accessors_guard_state Nat (Fut.create Nat ("w") 0) 5
    ("e") ("comp") 3 rfl).1

/-- Claim C9: the failure record built by `fail(reason, component)` copies
its reason string from the supplied error's message at construction time,
but the error object itself is not retained: the stored exception pointer
stays null, so the accessor `ex()` yields only the null pointer (whose
dereference in the source is invalid), never the original error. -/
theorem fail_builds_record_without_underlying_exception
    (e : StdException) (c : String) (f : Fut Nat) (r comp : String) (n : Nat) :
    ((FutureException.make e c).reason = e.what)
    ∧ ((FutureException.make e c).ex = none)
    ∧ ((f.fail r comp n).1.ex_ = some (FutureException.make (StdException.mk r) comp))
    ∧ ((f.fail r comp n).1.ex_.map FutureException.ex = some none)
    ∧ ((f.fail r comp n).1.ex_.map FutureException.reason = some r) :=
  ⟨rfl, rfl, rfl, rfl, rfl⟩

/-- Claim C6: registering a continuation on a pending future queues it and
the resolving call invokes it; registering after resolution invokes it
immediately, inside `on_ready`, before it returns.  Either way the
continuation is invoked exactly once, with the same resolved future as
argument, and the future that results is identical. -/
theorem register_before_or_after_resolution (T : Type) (f : Fut T) (k : Nat)
    (r : Resolve T) (now : Nat) (hp : f.state_ = St.pending) (ht : f.tasks_ = []) :
    ((f.on_ready k).2 = [])
    ∧ (((f.on_ready k).1.resolve r now).2 = [(k, ((f.on_ready k).1.resolve r now).1)])
    ∧ ((f.resolve r now).2 = [])
    ∧ (((f.resolve r now).1.on_ready k).2 = [(k, ((f.resolve r now).1.on_ready k).1)])
    ∧ (((f.on_ready k).1.resolve r now).1 = ((f.resolve r now).1.on_ready k).1) := by
  obtain ⟨st, ts, ex, lb, cr, rs, vl⟩ := f
  have hst : st = St.pending := hp
  have hts : ts = [] := ht
  subst hst
  subst hts
  cases r <;> exact ⟨rfl, rfl, rfl, rfl, rfl⟩

/-- Witness for `register_before_or_after_resolution` at a fresh future,
continuation 4, resolution `done(5)` at time 7. -/
theorem register_before_or_after_resolution_witness :
    (((Fut.create Nat ("w") 0).on_ready 4).1.resolve (Resolve.done 5) 7).1
      = (((Fut.create Nat ("w") 0).resolve (Resolve.done 5) 7).1.on_ready 4).1 :=
  (register_before_or_after_resolution Nat (Fut.create Nat ("w") 0) 4
    (Resolve.done 5) 7 rfl rfl).2.2.2.2

/-- Claim C3 (evaluation of the defect): the `try`/`catch` in `then`
converts a raised `std::runtime_error` or `cps::future_exception` into a
failure of the outer future carrying the raised error's message — but it
covers nothing else: an error that is a `std::exception` without being a
`std::runtime_error` (e.g. `std::logic_error("bad")`) matches neither
`catch` clause and escapes into the resolving call stack with the outer
future still pending, despite the header's own comment that a thrown
`std::exception` will be caught. -/
theorem then_catches_only_runtime_errors :
    (thenResult (fun _ : Nat => (Except.error (CppErr.runtimeError ("bad"))
        : Except CppErr (Outcome Nat))) none (Outcome.done 0)
      = Except.ok (Outcome.failed ("bad")))
    ∧ (thenResult (fun _ : Nat => (Except.error (CppErr.futureEx ("bad"))
        : Except CppErr (Outcome Nat))) none (Outcome.done 0)
      = Except.ok (Outcome.failed ("bad")))
    ∧ (thenResult (fun _ : Nat => (Except.ok (Outcome.done 1)
        : Except CppErr (Outcome Nat)))
        (some (fun _ => Except.error (CppErr.runtimeError ("worse"))))
        (Outcome.failed ("boom"))
      = Except.ok (Outcome.failed ("worse")))
    ∧ (thenResult (fun _ : Nat => (Except.error (CppErr.otherEx ("bad"))
        : Except CppErr (Outcome Nat))) none (Outcome.done 0)
      = Except.error (CppErr.otherEx ("bad"))) :=
  ⟨rfl, rfl, rfl, rfl⟩

/-- Claim C7: when the source resolved `done(v)` and `onSuccess(v)` returns
an inner future `g`, the outer future returned by `then` mirrors `g`
exactly: `done(x)` becomes `done(x)`, `failed(m)` becomes `failed(m)`, and
a cancelled inner future becomes `failed("cancelled")`; nothing escapes the
future boundary. -/
theorem then_mirrors_inner_future (V U : Type) (ok : V → Except CppErr (Outcome U))
    (err : Option (String → Except CppErr (Outcome U))) (v : V) (g : Outcome U)
    (hok : ok v = Except.ok g) :
    thenResult ok err (Outcome.done v)
      = Except.ok (match g with
          | Outcome.done x => Outcome.done x
          | Outcome.failed m => Outcome.failed m
          | Outcome.cancelled => Outcome.failed ("cancelled")) := by
  cases g <;> simp [thenResult, hok, mirrorInner]

/-- Witness for `then_mirrors_inner_future` on the three inner outcomes. -/
theorem then_mirrors_inner_future_witness :
    (thenResult (fun _ : Nat => (Except.ok (Outcome.done 7)
        : Except CppErr (Outcome Nat))) none (Outcome.done 0)
      = Except.ok (Outcome.done 7))
    ∧ (thenResult (fun _ : Nat => (Except.ok (Outcome.failed ("oops"))
        : Except CppErr (Outcome Nat))) none (Outcome.done 0)
      = Except.ok (Outcome.failed ("oops")))
    ∧ (thenResult (fun _ : Nat => (Except.ok (Outcome.cancelled)
        : Except CppErr (Outcome Nat))) none (Outcome.done 0)
      = Except.ok (Outcome.failed ("cancelled"))) :=
  ⟨then_mirrors_inner_future Nat Nat
      (fun _ : Nat => (Except.ok (Outcome.done 7) : Except CppErr (Outcome Nat)))
      none 0 (Outcome.done 7) rfl,
   then_mirrors_inner_future Nat Nat
      (fun _ : Nat => (Except.ok (Outcome.failed ("oops")) : Except CppErr (Outcome Nat)))
      none 0 (Outcome.failed ("oops")) rfl,
   then_mirrors_inner_future Nat Nat
      (fun _ : Nat => (Except.ok (Outcome.cancelled) : Except CppErr (Outcome Nat)))
      none 0 Outcome.cancelled rfl⟩

/-- Claim C2 counterexample: inputs `{f1, f2}` both pending at
registration; `f1` resolves non-`done` while `f2` is still pending (a
single event has been processed), yet the collection `needs_any` result is
already `failed("error")` — it did not wait for every input to resolve
non-`done`. -/
theorem needs_any_collection_fails_before_all_inputs :
    needsAnyRun RState.pending [InEv.failed] = RState.failed ("error")
    ∧ RState.failed ("error") ≠ RState.pending :=
  ⟨rfl, fun h => RState.noConfusion h⟩

/-- Claim C2 amended: the collection `needs_any` result is decided by the
first input to resolve while it is still pending — `done(0)` if that input
resolved `done` (even while others are pending or later fail), but also
`failed("error")` as soon as that first input resolved non-`done`, even
while other inputs are still pending; once terminal, later input
resolutions leave the result unchanged. -/
theorem needs_any_collection_first_resolution_decides :
    (∀ evs : List InEv, needsAnyRun RState.pending evs = RState.pending →
       needsAnyRun RState.pending (evs ++ [InEv.done]) = RState.done 0)
    ∧ (∀ evs : List InEv, needsAnyRun RState.pending evs = RState.pending →
       ∀ e : InEv, e.isDone = false →
         needsAnyRun RState.pending (evs ++ [e]) = RState.failed ("error"))
    ∧ (∀ r : RState, r ≠ RState.pending → ∀ e : InEv, needsAnyCode r e = r) := by
  refine ⟨?_, ?_, ?_⟩
  · intro evs hev
    rw [needsAnyRun_append, hev]
    rfl
  · intro evs hev e he
    rw [needsAnyRun_append, hev]
    cases e
    · simp [InEv.isDone] at he
    · rfl
    · rfl
  · intro r hr e
    simp [needsAnyCode, hr]

/-- Witness for `needs_any_collection_first_resolution_decides` on
singleton runs and a terminal result. -/
theorem needs_any_collection_first_resolution_decides_witness :
    needsAnyRun RState.pending [InEv.done] = RState.done 0
    ∧ needsAnyRun RState.pending [InEv.cancelled] = RState.failed ("error")
    ∧ needsAnyCode (RState.done 0) InEv.failed = RState.done 0 :=
  ⟨needs_any_collection_first_resolution_decides.1 [] rfl,
   needs_any_collection_first_resolution_decides.2.1 [] rfl InEv.cancelled rfl,
   needs_any_collection_first_resolution_decides.2.2 (RState.done 0)
     (fun h => RState.noConfusion h) InEv.failed⟩

/-- Claim C4 counterexample: `needs_all` over an empty collection — the
counter starts at `first.size() = 0` and the registration loop registers
no callback at all — hands back a future that is still pending at the
moment `needs_all` returns, not one resolved done. -/
theorem needs_all_empty_collection_stays_pending :
    (needsAllRun (needsAllInit 0) []).f = RState.pending
    ∧ RState.pending ≠ RState.done 0 :=
  ⟨rfl, fun h => RState.noConfusion h⟩

/-- Claim C4 amended: only the zero-argument overload of `needs_all`
returns a future already resolved done (vacuous success); `needs_all` on
an empty collection returns a future that is still pending when
`needs_all` returns — and, no callback having been registered, no input
event exists that could ever resolve it. -/
theorem needs_all_zero_inputs_split :
    needsAllNullary = RState.done 0
    ∧ (needsAllInit 0).f = RState.pending
    ∧ (needsAllRun (needsAllInit 0) []).f = RState.pending :=
  ⟨rfl, rfl, rfl⟩

/-- Claim C5: for a non-empty collection of inputs, `needs_all` resolves
`done` once every input has resolved `done` (whatever the arrival order);
while the result is still pending, one single input resolving non-`done`
(failed or cancelled) immediately fails it with reason `"error"`; and an
input resolving after the result is terminal leaves the combinator state
entirely unchanged. -/
theorem needs_all_collection_spec (n : Nat) (hn : 0 < n) :
    (∀ evs : List InEv, evs.length = n → (∀ e ∈ evs, e.isDone = true) →
       (needsAllRun (needsAllInit n) evs).f = RState.done 0)
    ∧ (∀ evs : List InEv, (needsAllRun (needsAllInit n) evs).f = RState.pending →
       ∀ e : InEv, e.isDone = false →
         (needsAllRun (needsAllInit n) (evs ++ [e])).f = RState.failed ("error"))
    ∧ (∀ s : NeedsAllSt, s.f ≠ RState.pending → ∀ e : InEv, needsAllCode s e = s) := by
  refine ⟨?_, ?_, ?_⟩
  · intro evs hlen hall
    have hrep : evs = List.replicate n InEv.done := by
      refine List.eq_replicate_iff.mpr ⟨hlen, ?_⟩
      intro b hb
      have hbd := hall b hb
      cases b
      · rfl
      · simp [InEv.isDone] at hbd
      · simp [InEv.isDone] at hbd
    obtain ⟨m, rfl⟩ : ∃ m, n = m + 1 := ⟨n - 1, by omega⟩
    rw [hrep, List.replicate_succ', needsAllRun_append,
      needsAllRun_replicate_done (m + 1) m (by omega)]
    have h0 : ((m + 1 : Nat) : Int) - (m : Int) - 1 = 0 := by push_cast; ring
    simp [needsAllCode, InEv.isDone, h0]
  · intro evs hev e he
    rw [needsAllRun_append]
    cases e
    · simp [InEv.isDone] at he
    · simp [needsAllCode, hev, InEv.isDone]
    · simp [needsAllCode, hev, InEv.isDone]
  · intro s hs e
    simp [needsAllCode, hs]

/-- Witness for `needs_all_collection_spec` on a two-input collection. -/
theorem needs_all_collection_spec_witness :
    (needsAllRun (needsAllInit 2) [InEv.done, InEv.done]).f = RState.done 0
    ∧ (needsAllRun (needsAllInit 2) [InEv.done, InEv.failed]).f = RState.failed ("error")
    ∧ needsAllCode { f := RState.done 0, pending := 0 } InEv.cancelled
        = { f := RState.done 0, pending := 0 } :=
  ⟨(needs_all_collection_spec 2 (by decide)).1 [InEv.done, InEv.done] rfl (by decide),
   (needs_all_collection_spec 2 (by decide)).2.1 [InEv.done] rfl InEv.failed rfl,
   (needs_all_collection_spec 2 (by decide)).2.2 { f := RState.done 0, pending := 0 }
     (fun h => RState.noConfusion h) InEv.cancelled⟩

/-- Claim C10: the variadic `needs_any(first, rest...)` is constructed over
the pair `(first, needs_all(rest...))`.  When the head input does not
resolve `done`: with the remainder resolving first, the result is `done`
exactly when every trailing input resolved `done`; with the head resolving
first, the result fails at once.  The collection form of `needs_any`
behaves differently: over the very inputs done-then-failed it resolves
`done` from the single `done` input, while the variadic form's
`needs_all`-aggregated tail turns the same trailing inputs into failure. -/
theorem needs_any_variadic_tail_aggregated_with_needs_all
    (first : InEv) (rest : List InEv) (hf : first.isDone = false) :
    ((needsAnyVariadicRun first rest false = RState.done 0)
      ↔ rest.all InEv.isDone = true)
    ∧ (needsAnyVariadicRun first rest true = RState.failed ("error"))
    ∧ (needsAnyRun RState.pending [InEv.done, InEv.failed] = RState.done 0)
    ∧ (needsAnyVariadicRun InEv.cancelled [InEv.done, InEv.failed] false
        = RState.failed ("error")) := by
  refine ⟨?_, ?_, rfl, rfl⟩
  · by_cases h : needsAllVariadic rest = RState.done 0
    · have hall := (needsAllVariadic_done_iff rest).mp h
      simp [needsAnyVariadicRun, h, hall, needsAnyRun, needsAnyCode, InEv.isDone]
    · have hall : ¬ rest.all InEv.isDone = true :=
        fun hc => h ((needsAllVariadic_done_iff rest).mpr hc)
      simp [needsAnyVariadicRun, h, hall, needsAnyRun, needsAnyCode, InEv.isDone]
  · cases first
    · simp [InEv.isDone] at hf
    · simp [needsAnyVariadicRun, needsAnyRun, needsAnyCode, InEv.isDone]
    · simp [needsAnyVariadicRun, needsAnyRun, needsAnyCode, InEv.isDone]

/-- Witness for `needs_any_variadic_tail_aggregated_with_needs_all` with a
failed head and a single `done` trailing input. -/
theorem needs_any_variadic_tail_witness :
    needsAnyVariadicRun InEv.failed [InEv.done] false = RState.done 0
    ∧ needsAnyVariadicRun InEv.failed [InEv.done] true = RState.failed ("error") :=
  ⟨(needs_any_variadic_tail_aggregated_with_needs_all InEv.failed [InEv.done] rfl).1.mpr
      (by decide),
   (needs_any_variadic_tail_aggregated_with_needs_all InEv.failed [InEv.done] rfl).2.1⟩
